import Mathlib

/-!
Shallow embedding of the MandiusBot Telegram report bot (src/index.js).

The embedding models:
  * the JavaScript string primitives the source uses (`trim`, `includes`,
    `startsWith`, `split`, `substring`, first-occurrence `replace`, global
    underscore replacement, `toLowerCase`, `isNaN`/`parseInt` coercions);
  * the entity classifier inside `generateReport` (normalisation of the
    identifier, the authoritative `getChat` lookup modelled as a function
    `ChatIdent → Option ChatInfo` where `none` stands for a thrown error or
    timeout, and the string-shape heuristic fallback in the `catch` block);
  * the report template (the exact literal text of `reportText`);
  * the conversation state machine: Telegraf scenes `getLink` / `getReason`
    plus the idle (no-scene) dispatch through `bot.start`, `bot.help`,
    `bot.command('report')`, `bot.command('cancel')` and the final
    `bot.on('message')` handler.  Telegraf routes an update to the active
    scene's handlers before the bot-level command handlers, and a scene's
    `on('text')` matches every text message, commands included; the `step`
    function reproduces that dispatch order.
-/

set_option maxRecDepth 20000

/-- Model of JavaScript `String.prototype.trim` (drop surrounding whitespace). -/
def jsTrim (s : String) : String :=
  ⟨((s.data.dropWhile Char.isWhitespace).reverse.dropWhile Char.isWhitespace).reverse⟩

/-- Model of JavaScript `String.prototype.toLowerCase` (ASCII case folding
suffices for the greeting set used by the source). -/
def jsToLower (s : String) : String :=
  ⟨s.data.map Char.toLower⟩

/-- Substring occurrence test on character lists: does `pat` occur inside `l`? -/
def containsSub : List Char → List Char → Bool
  | [], pat => pat.isEmpty
  | c :: t, pat => pat.isPrefixOf (c :: t) || containsSub t pat

/-- Model of JavaScript `s.includes(pat)`. -/
def jsIncludes (s pat : String) : Bool :=
  containsSub s.data pat.data

/-- Model of JavaScript `s.startsWith(pre)`. -/
def jsStartsWith (s pre : String) : Bool :=
  pre.data.isPrefixOf s.data

/-- Model of JavaScript `s.substring(n)` (drop the first `n` code units;
all characters involved here are in the ASCII range). -/
def jsDropChars (s : String) (n : Nat) : String :=
  ⟨s.data.drop n⟩

/-- Split on a single separator character, as JavaScript `s.split(sep)` does
for a one-character separator. -/
def splitOnCharAux (sep : Char) : List Char → List Char → List String
  | [], acc => [⟨acc.reverse⟩]
  | c :: t, acc =>
      if c = sep then ⟨acc.reverse⟩ :: splitOnCharAux sep t []
      else splitOnCharAux sep t (c :: acc)

/-- Model of JavaScript `s.split(sep)` for a one-character separator. -/
def jsSplit (s : String) (sep : Char) : List String :=
  splitOnCharAux sep s.data []

/-- Model of JavaScript `arr.join(sep)`. -/
def joinWith (sep : String) : List String → String
  | [] => ""
  | [x] => x
  | x :: xs => x ++ sep ++ joinWith sep xs

/-- Model of `word.charAt(0).toUpperCase() + word.slice(1)` from the source's
reason formatting (line 65 of src/index.js). -/
def jsCapitalize (w : String) : String :=
  match w.data with
  | [] => ""
  | c :: cs => ⟨Char.toUpper c :: cs⟩

/-- JavaScript truthiness-based defaulting `v || d` for an optional string
field: `undefined` and the empty string are falsy. -/
def jsOrElse (v : Option String) (d : String) : String :=
  match v with
  | none => d
  | some s => if s = "" then d else s

/-- JavaScript truthiness of an optional string value. -/
def truthyStr (v : Option String) : Bool :=
  match v with
  | none => false
  | some s => s != ""

/-- Hexadecimal digit test (JavaScript numeric literal alphabet). -/
def isHexDig (c : Char) : Bool :=
  c.isDigit || ('a' ≤ c && c ≤ 'f') || ('A' ≤ c && c ≤ 'F')

/-- Octal digit test. -/
def isOctDig (c : Char) : Bool :=
  '0' ≤ c && c ≤ '7'

/-- Binary digit test. -/
def isBinDig (c : Char) : Bool :=
  c = '0' || c = '1'

/-- Nonempty digit run with an optional leading sign (exponent part of a
JavaScript decimal literal). -/
def signedDigitsNE : List Char → Bool
  | '+' :: r => !r.isEmpty && r.all Char.isDigit
  | '-' :: r => !r.isEmpty && r.all Char.isDigit
  | r => !r.isEmpty && r.all Char.isDigit

/-- Optional exponent tail of a JavaScript decimal literal. -/
def expOk : List Char → Bool
  | [] => true
  | 'e' :: r => signedDigitsNE r
  | 'E' :: r => signedDigitsNE r
  | _ => false

/-- Body of a JavaScript decimal literal: `Digits [. Digits] [Exp]`,
`. Digits [Exp]`, or `Infinity`. -/
def decBody (l : List Char) : Bool :=
  if l = "Infinity".data then true
  else
    let ip := l.takeWhile Char.isDigit
    let rest := l.dropWhile Char.isDigit
    match rest with
    | [] => !ip.isEmpty
    | '.' :: r2 =>
        let fp := r2.takeWhile Char.isDigit
        let rest2 := r2.dropWhile Char.isDigit
        (!ip.isEmpty || !fp.isEmpty) && expOk rest2
    | 'e' :: _ => !ip.isEmpty && expOk rest
    | 'E' :: _ => !ip.isEmpty && expOk rest
    | _ => false

/-- Decimal literal with optional sign. -/
def signedDec : List Char → Bool
  | '+' :: r => decBody r
  | '-' :: r => decBody r
  | r => decBody r

/-- Model of the JavaScript test `!isNaN(s)` used at line 106 of src/index.js:
`Number(s)` is not NaN.  Covers the `StringNumericLiteral` grammar: whitespace
trimming, the empty string (which coerces to 0), decimal literals with
optional sign / fraction / exponent, `Infinity`, and unsigned hex, octal and
binary prefixed literals. -/
def jsIsNumeric (s : String) : Bool :=
  let t := (jsTrim s).data
  match t with
  | [] => true
  | '0' :: 'x' :: r => !r.isEmpty && r.all isHexDig
  | '0' :: 'X' :: r => !r.isEmpty && r.all isHexDig
  | '0' :: 'o' :: r => !r.isEmpty && r.all isOctDig
  | '0' :: 'O' :: r => !r.isEmpty && r.all isOctDig
  | '0' :: 'b' :: r => !r.isEmpty && r.all isBinDig
  | '0' :: 'B' :: r => !r.isEmpty && r.all isBinDig
  | _ => signedDec t

/-- Numeric value of a decimal digit run. -/
def digitsVal (l : List Char) : Nat :=
  l.foldl (fun acc c => acc * 10 + (c.toNat - 48)) 0

/-- Numeric value of a hexadecimal digit. -/
def hexDigVal (c : Char) : Nat :=
  if c.isDigit then c.toNat - 48
  else if 'a' ≤ c && c ≤ 'f' then c.toNat - 87
  else c.toNat - 55

/-- Model of JavaScript `parseInt(s)` (default radix): trim, optional sign,
`0x`/`0X` hexadecimal prefix, otherwise the longest leading decimal digit
run; `none` models the NaN result when no digit is found. -/
def jsParseInt (s : String) : Option Int :=
  let t := (jsTrim s).data
  let sgn : Int := match t with
    | '-' :: _ => -1
    | _ => 1
  let body : List Char := match t with
    | '+' :: r => r
    | '-' :: r => r
    | r => r
  match body with
  | '0' :: 'x' :: r =>
      let ds := r.takeWhile isHexDig
      if ds.isEmpty then none
      else some (sgn * (ds.foldl (fun acc c => acc * 16 + hexDigVal c) 0 : Nat))
  | '0' :: 'X' :: r =>
      let ds := r.takeWhile isHexDig
      if ds.isEmpty then none
      else some (sgn * (ds.foldl (fun acc c => acc * 16 + hexDigVal c) 0 : Nat))
  | r =>
      let ds := r.takeWhile Char.isDigit
      if ds.isEmpty then none else some (sgn * digitsVal ds)

/-- First-occurrence replacement on character lists, as JavaScript
`s.replace(pat, repl)` behaves for a plain-string pattern. -/
def jsReplaceFirstAux (pat repl : List Char) : List Char → List Char
  | [] => []
  | c :: t =>
      if pat.isPrefixOf (c :: t) then repl ++ (c :: t).drop pat.length
      else c :: jsReplaceFirstAux pat repl t

/-- The source's reason-label formatting (line 65 of src/index.js):
`data.replace('reason_', '').replace(/_/g, ' ').split(' ')
    .map(w => w.charAt(0).toUpperCase() + w.slice(1)).join(' ')`. -/
def formatReason (data : String) : String :=
  let stripped : List Char := jsReplaceFirstAux "reason_".data [] data.data
  let spaced : List Char := stripped.map (fun c => if c = '_' then ' ' else c)
  joinWith " " ((jsSplit ⟨spaced⟩ ' ').map jsCapitalize)

/-- Category-label formatting as the specification words it: strip the
`reason_` prefix, replace underscores with spaces, capitalize the first
letter of each word.  Kept separate from `formatReason` (which follows the
source) so the two can be compared. -/
def specCategoryLabel (tok : String) : String :=
  let stripped : List Char := tok.data.drop ("reason_".data.length)
  let spaced : List Char := stripped.map (fun c => if c = '_' then ' ' else c)
  joinWith " " ((jsSplit ⟨spaced⟩ ' ').map jsCapitalize)

/-- Identifier handed to the external `getChat` resolver: an `@username`
string, a parsed numeric id, or the NaN produced when `parseInt` finds no
digits. -/
inductive ChatIdent
  | byName (s : String)
  | byId (n : Int)
  | byNaN
deriving DecidableEq

/-- Record returned by a successful `getChat` lookup (the fields the source
reads). -/
structure ChatInfo where
  id : Int
  title : Option String
  type : String
  username : Option String
  is_bot : Bool
deriving DecidableEq

/-- Identifier normalisation from the `try` block of `generateReport`
(lines 97–112 of src/index.js).  `Except.error` models a thrown `Error`. -/
def normalizeIdentifier (reportLink : String) : Except String ChatIdent :=
  if jsStartsWith reportLink "https://t.me/" then
    let parts := jsSplit reportLink '/'
    let lastPart := parts.getLastD ""
    if jsStartsWith lastPart "+" then
      Except.error "Cannot get info for private invite links directly."
    else
      Except.ok (ChatIdent.byName (if jsStartsWith lastPart "@" then lastPart else "@" ++ lastPart))
  else if !jsStartsWith reportLink "@" && jsIsNumeric reportLink then
    Except.ok (match jsParseInt reportLink with
      | some n => ChatIdent.byId n
      | none => ChatIdent.byNaN)
  else if !jsStartsWith reportLink "@" then
    Except.error "Invalid format for direct chat lookup. Please use @username or a numeric ID."
  else
    Except.ok (ChatIdent.byName reportLink)

/-- The whole `try` block up to and including `ctx.telegram.getChat`:
`none` when normalisation throws or the resolver call fails. -/
def attemptLookup (resolve : ChatIdent → Option ChatInfo) (reportLink : String) :
    Option ChatInfo :=
  match normalizeIdentifier reportLink with
  | Except.error _ => none
  | Except.ok ident => resolve ident

/-- Output of the classification part of `generateReport`: the three local
variables `chatType`, `chatTitle`, `chat_id` as they stand when the template
is built. -/
structure ClassifierResult where
  chatType : String
  chatTitle : String
  chat_id : String
deriving DecidableEq

/-- Initial value of `chat_id` (line 91 of src/index.js), left untouched by
the heuristic fallback. -/
def chatIdPlaceholder : String :=
  "None (Please find using @userinfobot or similar)"

/-- Chat-type mapping applied on resolver success (lines 121–129 of
src/index.js); `chatType` keeps its initial value "Unknown" when no branch
matches. -/
def successType (info : ChatInfo) : String :=
  if info.type = "channel" then "Channel"
  else if info.type = "group" || info.type = "supergroup" then "Group"
  else if info.type = "private" then "Private Chat (User)"
  else if truthyStr info.username && info.is_bot then "Bot"
  else "Unknown"

/-- The heuristic fallback of the `catch` block (lines 134–151 of
src/index.js).  It only ever assigns `chatType` and `chatTitle`, starting
from their initial values "Unknown" / "None". -/
def heuristicTypeTitle (reportLink : String) : String × String :=
  if jsIncludes reportLink "t.me/joinchat" then ("Group", "None")
  else if jsIncludes reportLink "t.me/" then
    if jsStartsWith reportLink "https://t.me/" then
      let parts := jsSplit reportLink '/'
      let lastPart := parts.getLastD ""
      if jsStartsWith lastPart "@" then ("Bot/Channel (Username)", jsDropChars lastPart 1)
      else if lastPart != "" then ("Bot/Channel (Link)", lastPart)
      else ("Unknown", "None")
    else if jsStartsWith reportLink "@" then
      ("Bot/Channel (Username)", jsDropChars reportLink 1)
    else ("Unknown", "None")
  else ("Unknown", "None")

/-- Classifier result on the heuristic path: `chat_id` keeps its placeholder. -/
def heuristicClassify (reportLink : String) : ClassifierResult :=
  let tt := heuristicTypeTitle reportLink
  ⟨tt.1, tt.2, chatIdPlaceholder⟩

/-- The classification performed by `generateReport` (lines 89–152 of
src/index.js): attempt the authoritative lookup, fall back to the string
heuristic on any failure.  On success `chat_id` is the resolved id,
`chatTitle` is `chatInfo.title || 'None'`. -/
def classify (resolve : ChatIdent → Option ChatInfo) (reportLink : String) :
    ClassifierResult :=
  match attemptLookup resolve reportLink with
  | none => heuristicClassify reportLink
  | some info => ⟨successType info, jsOrElse info.title "None", toString info.id⟩

/-- Per-user session record (the fields the source stores on `ctx.session`);
`none` models an absent (undefined) field. -/
structure Session where
  reportLink : Option String := none
  reasonType : Option String := none
  detailedReason : Option String := none
deriving DecidableEq

/-- The literal report template (lines 155–168 of src/index.js). -/
def reportText (r : ClassifierResult) (reportLink reasonType : String) : String :=
  "<b>Report Data:</b>\n\n" ++
  "<b>📝Text:</b> This content shared in this public bot includes spam for illegal channels that contain illegal images or videos. If a telegram user joins all the channels listed in the bot Once started, they will be sent illegal images or videos. It also violates Telegram\x27s policy on adult content, especially when such content is accessible to minors and copyright infringement. It also shares a phishing link used to steal personal information and to scam Telegram users and steal credit cards and sensitive data.\n\n" ++
  "<b>🗨️Chat Type:</b> " ++ r.chatType ++ "\n" ++
  "<b>🗨️Chat Title:</b> " ++ r.chatTitle ++ "\n" ++
  "<b>🗨️Chat ID:</b> " ++ r.chat_id ++ "\n" ++
  "<b>🗨️Chat Link:</b> <code>" ++ reportLink ++ "</code>\n" ++
  "<b>🗨️Relevant Laws:</b> " ++ reasonType ++ "\n" ++
  "<b>Name:</b> Not Available\n" ++
  "<b>🗺️Address:</b> Not Available\n" ++
  "<b>📞Phone Number:</b> Not Available\n" ++
  "<b>📧E-Mail:</b> Not Available\n\n" ++
  "Thank you for helping keep Telegram safe!"

/-- The text produced by `generateReport` (lines 84–168 of src/index.js).
The source computes `detailedReason` at line 87 but the template never
interpolates it. -/
def generateReport (resolve : ChatIdent → Option ChatInfo) (sess : Session) : String :=
  let reportLink := jsOrElse sess.reportLink "N/A"
  let reasonType := jsOrElse sess.reasonType "User Provided"
  let _detailedReason := jsOrElse sess.detailedReason "No detailed explanation provided."
  reportText (classify resolve reportLink) reportLink reasonType

/-- Conversation state: no active scene, or one of the two registered scenes. -/
inductive Scene
  | idle
  | getLink
  | getReason
deriving DecidableEq

/-- Full per-user machine state: active scene plus session fields. -/
structure BotState where
  scene : Scene
  sess : Session
deriving DecidableEq

/-- An inbound update: a text message (commands are text messages), an
inline-button callback query, or a non-text message. -/
inductive Update
  | textMsg (s : String)
  | callback (data : String)
  | otherMsg
deriving DecidableEq

/-- Static context of a turn: the external resolver and the sender's
`first_name` (absent modelled as `none`). -/
structure Env where
  resolve : ChatIdent → Option ChatInfo
  firstName : Option String

/-- Telegraf command matching: a text message carries the command when the
`/name` token opens it (exactly, or followed by a space or `@botname`). -/
def isCommand (text cmd : String) : Bool :=
  text = "/" ++ cmd || jsStartsWith text ("/" ++ cmd ++ " ") ||
    jsStartsWith text ("/" ++ cmd ++ "@")

/-- Prompt sent by `getLinkScene.enter` (line 33 of src/index.js). -/
def linkPrompt : String :=
  "✅ Session created! \n\n Please provide the @username (e.g., @iPapkornBot) or a direct link (e.g., https://t.me/channelname) to the channel/group/bot you wish to report."

/-- Prompt sent with the reason keyboard (line 47 of src/index.js). -/
def reasonPrompt : String :=
  "Please explain why this content is illegal under EU or EU member law:"

/-- Welcome text (lines 181–189, repeated verbatim at lines 236–244). -/
def welcomeMessage (firstName : Option String) : String :=
  "Hello " ++ jsOrElse firstName "there" ++ "!\n\n" ++
  "I am your Telegram Report Bot. I can help you generate reports for " ++
  "illegal bots, channels, or groups on Telegram.\n\n" ++
  "Here\x27s what I can do:\n" ++
  "➡️ /report - Start the process to generate a report.\n" ++
  "➡️ /help - Get more information about how to use me.\n\n" ++
  "Let\x27s make Telegram a safer place!"

/-- Help text (lines 197–205). -/
def helpText : String :=
  "<b>How to use this bot:</b>\n\n" ++
  "1. Type /report to begin.\n" ++
  "2. I will ask you for the link or username of the bot/channel/group you want to report.\n" ++
  "3. Provide the link (e.g., <code>https://t.me/example</code>) or username (e.g., <code>@example</code>).\n" ++
  "4. Next, I\x27ll ask for the reason for the report. You can choose from predefined options or type your own detailed explanation.\n" ++
  "5. I will then generate a comprehensive report for you to copy and send to Telegram\x27s official support (e.g., via their in-app reporting feature or email abuse@telegram.org).\n\n" ++
  "Remember to be as detailed as possible in your explanation to help Telegram investigate effectively."

/-- Greeting words recognised by the idle message handler (line 233). -/
def greetings : List String :=
  ["hi", "hello", "hey", "hii", "helo", "hola"]

/-- One dispatch step of the bot for a single inbound update, following
Telegraf's middleware order in src/index.js: session and stage middleware
first (so an active scene's handlers see the update before any bot-level
command handler — a scene's `on('text')` consumes commands too), then
`bot.start`, `bot.help`, `bot.command('report')`, `bot.command('cancel')`,
and finally the greeting/fallback `bot.on('message')` handler.  The returned
list collects the texts of the outbound replies and message edits. -/
def step (env : Env) (st : BotState) (u : Update) : BotState × List String :=
  match st.scene with
  | Scene.getLink =>
      match u with
      | Update.textMsg s =>
          (⟨Scene.getReason, { st.sess with reportLink := some (jsTrim s) }⟩,
           [reasonPrompt])
      | Update.otherMsg =>
          (st, ["Invalid input. Please provide a valid link or username."])
      | Update.callback _ => (st, [])
  | Scene.getReason =>
      match u with
      | Update.callback data =>
          if jsIncludes data "reason_" then
            if data = "reason_other" then
              (⟨Scene.getReason, { st.sess with reasonType := some "User Provided" }⟩,
               ["Please type your detailed reason for the report:"])
            else
              let rt := formatReason data
              (⟨Scene.getReason, { st.sess with reasonType := some rt }⟩,
               ["You selected: " ++ rt ++ ". Please provide a detailed explanation now."])
          else (st, [])
      | Update.textMsg s =>
          let sess := { st.sess with detailedReason := some (jsTrim s) }
          (⟨Scene.idle, {}⟩, [generateReport env.resolve sess])
      | Update.otherMsg =>
          (st, ["Please select a reason from the options or type your detailed explanation."])
  | Scene.idle =>
      match u with
      | Update.textMsg s =>
          if isCommand s "start" then (st, [welcomeMessage env.firstName])
          else if isCommand s "help" then (st, [helpText])
          else if isCommand s "report" then (⟨Scene.getLink, st.sess⟩, [linkPrompt])
          else if isCommand s "cancel" then
            (⟨Scene.idle, {}⟩,
             ["Report generation canceled. You can start a new one anytime with /report."])
          else if greetings.contains (jsToLower s) then (st, [welcomeMessage env.firstName])
          else (st, ["I didn\x27t understand that. Please use /start, /help, or /report."])
      | Update.callback _ => (st, [])
      | Update.otherMsg => (st, [])

/-! ## General lemmas about the string primitives -/

/-- Prefix comparison on character lists is transitive. -/
theorem prefixOf_trans : ∀ {p q l : List Char}, p.isPrefixOf q = true →
    q.isPrefixOf l = true → p.isPrefixOf l = true := by
  intro p
  induction p with
  | nil => intro q l _ _; simp [List.isPrefixOf]
  | cons a as ih =>
      intro q l h1 h2
      cases q with
      | nil => simp [List.isPrefixOf] at h1
      | cons b bs =>
          cases l with
          | nil => simp [List.isPrefixOf] at h2
          | cons c cs =>
              simp only [List.isPrefixOf, Bool.and_eq_true, beq_iff_eq] at h1 h2 ⊢
              exact ⟨h1.1.trans h2.1, ih h1.2 h2.2⟩

/-- A prefix of a list is a prefix of any right extension of it. -/
theorem prefixOf_append_ext : ∀ {p l : List Char} (r : List Char),
    p.isPrefixOf l = true → p.isPrefixOf (l ++ r) = true := by
  intro p
  induction p with
  | nil => intro l r _; simp [List.isPrefixOf]
  | cons a as ih =>
      intro l r h
      cases l with
      | nil => simp [List.isPrefixOf] at h
      | cons b bs =>
          simp only [List.cons_append, List.isPrefixOf, Bool.and_eq_true] at h ⊢
          exact ⟨h.1, ih r h.2⟩

/-- Every list is a prefix of itself followed by anything. -/
theorem prefixOf_self_app : ∀ (p r : List Char), p.isPrefixOf (p ++ r) = true := by
  intro p r
  induction p with
  | nil => simp [List.isPrefixOf]
  | cons a as ih =>
      simp only [List.cons_append, List.isPrefixOf, Bool.and_eq_true]
      exact ⟨by simp, ih⟩

/-- The empty pattern occurs in every list. -/
theorem containsSub_nilpat : ∀ l : List Char, containsSub l [] = true := by
  intro l
  cases l with
  | nil => rfl
  | cons c t => unfold containsSub; simp [List.isPrefixOf]

/-- Occurrence of a pattern implies occurrence of any prefix of that pattern. -/
theorem containsSub_mono : ∀ {l pat1 pat2 : List Char},
    pat2.isPrefixOf pat1 = true → containsSub l pat1 = true → containsSub l pat2 = true := by
  intro l
  induction l with
  | nil =>
      intro pat1 pat2 hp h
      unfold containsSub at h ⊢
      cases pat1 with
      | nil =>
          cases pat2 with
          | nil => rfl
          | cons x xs => simp [List.isPrefixOf] at hp
      | cons y ys => simp [List.isEmpty] at h
  | cons c t ih =>
      intro pat1 pat2 hp h
      unfold containsSub at h ⊢
      rw [Bool.or_eq_true] at h ⊢
      cases h with
      | inl h1 => exact Or.inl (prefixOf_trans hp h1)
      | inr h2 => exact Or.inr (ih hp h2)

/-- A string containing "t.me/joinchat" contains "t.me/". -/
theorem jsIncludes_joinchat_sub (s : String) (h : jsIncludes s "t.me/joinchat" = true) :
    jsIncludes s "t.me/" = true :=
  containsSub_mono (by decide) h

/-- A list occurs in itself followed by anything. -/
theorem containsSub_self_app : ∀ (p r : List Char), containsSub (p ++ r) p = true := by
  intro p r
  cases p with
  | nil => simpa using containsSub_nilpat r
  | cons c t =>
      rw [List.cons_append]
      unfold containsSub
      have h := prefixOf_self_app (c :: t) r
      rw [List.cons_append] at h
      simp [h]

/-- Occurrence is preserved by prepending. -/
theorem containsSub_app_left : ∀ (x r pat : List Char),
    containsSub r pat = true → containsSub (x ++ r) pat = true := by
  intro x
  induction x with
  | nil => intro r pat h; simpa using h
  | cons c t ih =>
      intro r pat h
      rw [List.cons_append]
      unfold containsSub
      simp [ih r pat h]

/-- Occurrence is preserved by appending. -/
theorem containsSub_app_right : ∀ (l r pat : List Char),
    containsSub l pat = true → containsSub (l ++ r) pat = true := by
  intro l
  induction l with
  | nil =>
      intro r pat h
      unfold containsSub at h
      cases pat with
      | nil => exact containsSub_nilpat r
      | cons x xs => simp [List.isEmpty] at h
  | cons c t ih =>
      intro r pat h
      unfold containsSub at h
      rw [List.cons_append]
      unfold containsSub
      rw [Bool.or_eq_true] at h ⊢
      cases h with
      | inl h1 =>
          left
          have hx := prefixOf_append_ext (p := pat) (l := c :: t) r h1
          rw [List.cons_append] at hx
          exact hx
      | inr h2 => exact Or.inr (ih r pat h2)

/-- Every list occurs in itself. -/
theorem containsSub_self : ∀ p : List Char, containsSub p p = true := by
  intro p
  have h := containsSub_self_app p []
  rwa [List.append_nil] at h

/-- `jsIncludes` is preserved by appending on the right. -/
theorem jsIncludes_app_right (s r pat : String) (h : jsIncludes s pat = true) :
    jsIncludes (s ++ r) pat = true := by
  unfold jsIncludes at h ⊢
  rw [String.data_append]
  exact containsSub_app_right _ _ _ h

/-- A string ends with any of its own suffixes: `x ++ pat` contains `pat`. -/
theorem jsIncludes_end (x pat : String) : jsIncludes (x ++ pat) pat = true := by
  unfold jsIncludes
  rw [String.data_append]
  exact containsSub_app_left _ _ _ (containsSub_self _)

/-- `jsStartsWith` is preserved by appending on the right. -/
theorem jsStartsWith_app (s r pre : String) (h : jsStartsWith s pre = true) :
    jsStartsWith (s ++ r) pre = true := by
  unfold jsStartsWith at h ⊢
  rw [String.data_append]
  exact prefixOf_append_ext _ h

/-- The rendered report always contains the category label it interpolates. -/
theorem reportText_contains_label (r : ClassifierResult) (link lab : String) :
    jsIncludes (reportText r link lab) lab = true := by
  unfold reportText
  iterate 6 apply jsIncludes_app_right
  exact jsIncludes_end _ _

/-- The rendered report always begins with the fixed report header. -/
theorem reportText_startsWith (r : ClassifierResult) (link lab : String) :
    jsStartsWith (reportText r link lab) "<b>Report Data:</b>" = true := by
  unfold reportText
  iterate 21 apply jsStartsWith_app
  decide

/-! ## The claims -/

/-- C1 (counterexample): the claim as stated is false at the concrete input
"@iPapkornBot" with a failing resolver — the classifier does NOT return
chatType "Bot/Channel (Username)" with chatTitle "iPapkornBot"; the
`startsWith("@")` fallback branch sits inside the `includes("t.me/")` branch,
so a plain @-username never reaches it. -/
theorem classify_plain_username_not_heuristic_username :
    ¬ ((classify (fun _ => none) "@iPapkornBot").chatType = "Bot/Channel (Username)" ∧
       (classify (fun _ => none) "@iPapkornBot").chatTitle = "iPapkornBot") := by
  decide

/-- C1 (amended): for every identifier that is a plain @-username or purely
numeric — in fact for any identifier not containing "t.me/" — when the
resolver lookup fails, the heuristic leaves chatType "Unknown" and chatTitle
"None"; the heuristic path is a total function and never raises. -/
theorem classify_plain_username_or_numeric_unknown :
    ∀ (resolve : ChatIdent → Option ChatInfo) (ident : String),
      (∀ q, resolve q = none) →
      (jsStartsWith ident "@" = true ∨ (ident ≠ "" ∧ ident.data.all Char.isDigit = true)) →
      jsIncludes ident "t.me/" = false →
      (classify resolve ident).chatType = "Unknown" ∧
      (classify resolve ident).chatTitle = "None" := by
  intro resolve ident hres _hshape hinc
  have hatt : attemptLookup resolve ident = none := by
    unfold attemptLookup
    cases hn : normalizeIdentifier ident with
    | error e => rfl
    | ok q => exact hres q
  have hj : jsIncludes ident "t.me/joinchat" = false := by
    cases hjc : jsIncludes ident "t.me/joinchat"
    · rfl
    · rw [jsIncludes_joinchat_sub ident hjc] at hinc
      exact absurd hinc (by simp)
  unfold classify
  rw [hatt]
  simp [heuristicClassify, heuristicTypeTitle, hj, hinc]

/-- C1 (witness): the amended statement at the concrete input "@iPapkornBot"
with an always-failing resolver. -/
theorem classify_plain_username_or_numeric_unknown_witness :
    (classify (fun _ => none) "@iPapkornBot").chatType = "Unknown" ∧
    (classify (fun _ => none) "@iPapkornBot").chatTitle = "None" :=
  classify_plain_username_or_numeric_unknown (fun _ => none) "@iPapkornBot"
    (fun _ => rfl) (Or.inl (by decide)) (by decide)

/-- C2 (code evaluated at the failing input): in the getLink scene (state
AwaitingLink) the text "/cancel" is consumed by the scene's text handler —
it is stored as the report link and the machine advances to AwaitingReason
with the reason prompt, instead of clearing the session and returning to
Idle.  The `bot.command('cancel')` handler is registered after the stage
middleware and never fires while a scene is active. -/
theorem cancel_text_swallowed_in_getLink :
    step ⟨fun _ => none, none⟩ ⟨Scene.getLink, {}⟩ (Update.textMsg "/cancel") =
      (⟨Scene.getReason, { reportLink := some "/cancel", reasonType := none,
                           detailedReason := none }⟩, [reasonPrompt]) := by
  rfl

/-- C3 (counterexample): a completed session whose detailedReason is the
marker "zqxjdetail" produces a report that does not contain the marker — the
template never interpolates the free-text explanation. -/
theorem report_omits_detailedReason :
    jsIncludes
      (generateReport (fun _ => none)
        { reportLink := some "@x", reasonType := some "Spam",
          detailedReason := some "zqxjdetail" })
      "zqxjdetail" = false := by
  decide

/-- C3 (amended): the synthesized report is independent of the session's
detailedReason field (the source computes the value at line 87 but the
template at lines 155–168 never uses it), while the category label is
interpolated and does appear in the report text. -/
theorem report_independent_of_detailedReason :
    ∀ (resolve : ChatIdent → Option ChatInfo) (rl rt d1 d2 : Option String),
      generateReport resolve ⟨rl, rt, d1⟩ = generateReport resolve ⟨rl, rt, d2⟩ ∧
      jsIncludes (generateReport resolve ⟨rl, rt, d1⟩) (jsOrElse rt "User Provided") = true := by
  intro resolve rl rt d1 d2
  exact ⟨rfl, reportText_contains_label _ _ _⟩

/-- C4: every complete run of the dialogue — /report, then a text
identifier, then any category selection ("Other" included), then free text —
ends in the Idle state with the session cleared: reportLink, reasonType and
detailedReason are all absent afterwards, whatever the starting session,
resolver and inputs were. -/
theorem full_flow_ends_idle_cleared :
    ∀ (env : Env) (s0 : Session) (link txt tok : String),
      tok ∈ ["reason_spam", "reason_illegal_content", "reason_phishing",
             "reason_adult_content", "reason_other"] →
      ((step env ((step env ((step env ((step env ⟨Scene.idle, s0⟩
          (Update.textMsg "/report")).1) (Update.textMsg link)).1)
          (Update.callback tok)).1) (Update.textMsg txt)).1 =
        ⟨Scene.idle, { reportLink := none, reasonType := none, detailedReason := none }⟩) := by
  intro env s0 link txt tok h
  fin_cases h <;> rfl

/-- C4 (witness): the full flow at concrete inputs through the "Other"
category, starting from a stale session. -/
theorem full_flow_ends_idle_cleared_witness :
    (step ⟨fun _ => none, none⟩ ((step ⟨fun _ => none, none⟩ ((step ⟨fun _ => none, none⟩
        ((step ⟨fun _ => none, none⟩ ⟨Scene.idle, ⟨some "stale", some "stale", some "stale"⟩⟩
        (Update.textMsg "/report")).1) (Update.textMsg "@target")).1)
        (Update.callback "reason_other")).1) (Update.textMsg "my reason")).1 =
      ⟨Scene.idle, { reportLink := none, reasonType := none, detailedReason := none }⟩ :=
  full_flow_ends_idle_cleared ⟨fun _ => none, none⟩ ⟨some "stale", some "stale", some "stale"⟩
    "@target" "my reason" "reason_other" (by decide)

/-- C5: on resolver success the chat-type mapping is a deterministic
function of the returned record — "channel" to "Channel", "group" and
"supergroup" to "Group", "private" to "Private Chat (User)", otherwise
"Bot" when the username is set and is_bot holds — and the returned id and a
nonempty title pass through unchanged. -/
theorem classify_success_type_mapping :
    ∀ (resolve : ChatIdent → Option ChatInfo) (ident : String) (info : ChatInfo),
      attemptLookup resolve ident = some info →
      ((info.type = "channel" → (classify resolve ident).chatType = "Channel") ∧
       ((info.type = "group" ∨ info.type = "supergroup") →
         (classify resolve ident).chatType = "Group") ∧
       (info.type = "private" → (classify resolve ident).chatType = "Private Chat (User)") ∧
       (info.type ≠ "channel" → info.type ≠ "group" → info.type ≠ "supergroup" →
         info.type ≠ "private" → truthyStr info.username = true → info.is_bot = true →
         (classify resolve ident).chatType = "Bot") ∧
       (classify resolve ident).chat_id = toString info.id ∧
       (∀ t, info.title = some t → t ≠ "" → (classify resolve ident).chatTitle = t)) := by
  intro resolve ident info h
  have hc : classify resolve ident =
      ⟨successType info, jsOrElse info.title "None", toString info.id⟩ := by
    unfold classify; rw [h]
  rw [hc]
  refine ⟨?_, ?_, ?_, ?_, rfl, ?_⟩
  · intro ht; simp [successType, ht]
  · intro ht
    cases ht with
    | inl h1 => simp [successType, h1]
    | inr h1 => simp [successType, h1]
  · intro ht; simp [successType, ht]
  · intro h1 h2 h3 h4 h5 h6
    simp [successType, h1, h2, h3, h4, h5, h6]
  · intro t ht hne; simp [jsOrElse, ht, hne]

/-- C5 (witness): the mapping at the spec's test input — a resolver
returning id 42, title "Spam Bot", type "supergroup" for "@iPapkornBot"
gives chatType "Group" with id and title passed through. -/
theorem classify_success_type_mapping_witness :
    (classify (fun _ => some ⟨42, some "Spam Bot", "supergroup", some "iPapkornBot", true⟩)
        "@iPapkornBot").chatType = "Group" ∧
    (classify (fun _ => some ⟨42, some "Spam Bot", "supergroup", some "iPapkornBot", true⟩)
        "@iPapkornBot").chat_id = "42" ∧
    (classify (fun _ => some ⟨42, some "Spam Bot", "supergroup", some "iPapkornBot", true⟩)
        "@iPapkornBot").chatTitle = "Spam Bot" := by
  have h := classify_success_type_mapping
    (fun _ => some ⟨42, some "Spam Bot", "supergroup", some "iPapkornBot", true⟩)
    "@iPapkornBot" ⟨42, some "Spam Bot", "supergroup", some "iPapkornBot", true⟩ rfl
  refine ⟨h.2.1 (Or.inr rfl), ?_, h.2.2.2.2.2 "Spam Bot" rfl (by decide)⟩
  rw [h.2.2.2.2.1]
  decide

/-- C6: for every identifier (whatever the session holds) and every resolver
behaviour, completing the dialogue step always produces exactly one reply
which is the report (it begins with the report header, so no failure is
surfaced as an error), and the machine reaches Idle: classification never
propagates a lookup failure. -/
theorem report_step_always_completes :
    ∀ (env : Env) (sess : Session) (s : String),
      (step env ⟨Scene.getReason, sess⟩ (Update.textMsg s)).2.length = 1 ∧
      jsStartsWith ((step env ⟨Scene.getReason, sess⟩ (Update.textMsg s)).2.headD "")
        "<b>Report Data:</b>" = true ∧
      (step env ⟨Scene.getReason, sess⟩ (Update.textMsg s)).1.scene = Scene.idle := by
  intro env sess s
  exact ⟨rfl, reportText_startsWith _ _ _, rfl⟩

/-- C7: every non-"Other" category token is stored as the label obtained by
stripping the reason_ prefix, replacing underscores with spaces and
capitalizing each word; in particular reason_illegal_content stores exactly
"Illegal Content". -/
theorem reason_token_stored_label :
    ∀ (env : Env) (sess : Session) (tok : String),
      tok ∈ ["reason_spam", "reason_illegal_content", "reason_phishing",
             "reason_adult_content"] →
      (step env ⟨Scene.getReason, sess⟩ (Update.callback tok)).1.sess.reasonType =
        some (specCategoryLabel tok) ∧
      (step env ⟨Scene.getReason, sess⟩
          (Update.callback "reason_illegal_content")).1.sess.reasonType =
        some "Illegal Content" := by
  intro env sess tok h
  fin_cases h <;> exact ⟨rfl, rfl⟩

/-- C7 (witness): the stored label at the concrete token
reason_illegal_content is exactly "Illegal Content". -/
theorem reason_token_stored_label_witness :
    (step ⟨fun _ => none, none⟩ ⟨Scene.getReason, {}⟩
        (Update.callback "reason_illegal_content")).1.sess.reasonType =
      some (specCategoryLabel "reason_illegal_content") ∧
    (step ⟨fun _ => none, none⟩ ⟨Scene.getReason, {}⟩
        (Update.callback "reason_illegal_content")).1.sess.reasonType =
      some "Illegal Content" :=
  reason_token_stored_label ⟨fun _ => none, none⟩ {} "reason_illegal_content" (by decide)

/-- C8: for the identifier "https://t.me/joinchat/abc" with an absent or
failing resolver, classification yields chatType "Group". -/
theorem joinchat_fallback_group :
    ∀ (resolve : ChatIdent → Option ChatInfo),
      (∀ q, resolve q = none) →
      (classify resolve "https://t.me/joinchat/abc").chatType = "Group" := by
  intro resolve h
  have hatt : attemptLookup resolve "https://t.me/joinchat/abc" = none := by
    unfold attemptLookup
    cases hn : normalizeIdentifier "https://t.me/joinchat/abc" with
    | error e => rfl
    | ok q => exact h q
  unfold classify
  rw [hatt]
  decide

/-- C8 (witness): the statement at the concrete always-failing resolver. -/
theorem joinchat_fallback_group_witness :
    (classify (fun _ => none) "https://t.me/joinchat/abc").chatType = "Group" :=
  joinchat_fallback_group (fun _ => none) (fun _ => rfl)

/-- C9: the report synthesis is deterministic — its output is a function of
the three session field values and the resolver alone, so two sessions with
identical field values yield byte-identical report text (the embedding is a
pure function, mirroring the side-effect-free template construction of the
source). -/
theorem generateReport_deterministic :
    ∀ (resolve : ChatIdent → Option ChatInfo) (s1 s2 : Session),
      s1.reportLink = s2.reportLink → s1.reasonType = s2.reasonType →
      s1.detailedReason = s2.detailedReason →
      generateReport resolve s1 = generateReport resolve s2 := by
  intro resolve s1 s2 h1 h2 h3
  obtain ⟨a, b, c⟩ := s1
  obtain ⟨d, e, f⟩ := s2
  simp only at h1 h2 h3
  subst h1
  subst h2
  subst h3
  rfl

/-- C9 (witness): two identical concrete invocations produce equal text. -/
theorem generateReport_deterministic_witness :
    generateReport (fun _ => none) ⟨some "@x", some "Spam", some "d"⟩ =
    generateReport (fun _ => none) ⟨some "@x", some "Spam", some "d"⟩ :=
  generateReport_deterministic (fun _ => none) _ _ rfl rfl rfl

/-- C10: whenever the authoritative lookup fails the whole classification is
the heuristic result, whose Chat ID field is the fixed placeholder string —
the fallback changes only chatType and chatTitle; a real chat id appears
exactly on resolver success, where it is the resolved id. -/
theorem chat_id_frame :
    ∀ (resolve : ChatIdent → Option ChatInfo) (ident : String),
      (attemptLookup resolve ident = none →
        classify resolve ident = heuristicClassify ident ∧
        (classify resolve ident).chat_id =
          "None (Please find using @userinfobot or similar)") ∧
      (∀ info : ChatInfo, attemptLookup resolve ident = some info →
        (classify resolve ident).chat_id = toString info.id) := by
  intro resolve ident
  constructor
  · intro h
    unfold classify
    rw [h]
    exact ⟨rfl, rfl⟩
  · intro info h
    unfold classify
    rw [h]

/-- C10 (witness): the placeholder at a failing resolver and the resolved id
at a succeeding one, both at concrete inputs. -/
theorem chat_id_frame_witness :
    (classify (fun _ => none) "@reportme").chat_id =
      "None (Please find using @userinfobot or similar)" ∧
    (classify (fun _ => some ⟨77, none, "channel", none, false⟩) "@reportme").chat_id = "77" := by
  constructor
  · exact ((chat_id_frame (fun _ => none) "@reportme").1 rfl).2
  · have h := (chat_id_frame (fun _ => some ⟨77, none, "channel", none, false⟩) "@reportme").2
      ⟨77, none, "channel", none, false⟩ rfl
    rw [h]
    decide
